import Mathlib

/-!
Verification of the `solutils` crate against its specification.

Shallow embedding of:
* `src/src/charge.rs` — the `token_fee` fee charger and `verify_ata` check;
* `src/derive/chargeable/src/lib.rs` — the `Chargeable` derive macro's
  field-resolution logic (`get_field`, `impl_chargeable`);
* `src/src/wrappers/metadata.rs` — the metadata CPI wrapper
  `update_metadata_accounts_v2` and the three account deserializers.

External collaborators (the SPL associated-token derivation, the token
program's transfer instruction, the mpl-token-metadata deserializers) are
not code of this repository; they enter the embedding as parameters of an
explicit environment record, so that the theorems quantify over every
possible behaviour of those collaborators.
-/

namespace Solutils

/-- A Solana public key (an opaque 32-byte account address), modelled as a
natural number.  Only equality of keys is ever observed by this crate. -/
structure Pubkey where
  key : Nat
deriving DecidableEq, Repr

/-- `FeeError` from `charge.rs`: the single variant
`InvalidAssociatedTokenAddress` (discriminant 1000). -/
inductive FeeError where
  | invalidAssociatedTokenAddress
deriving DecidableEq, Repr

/-- The anchor-level error type that `token_fee` returns: either this
crate's own `FeeError`, or an error produced by the external token program's
`transfer` call, carried unchanged (modelled by an opaque numeric code). -/
inductive ChargeError where
  | fee (e : FeeError)
  | tokenProgram (code : Nat)
deriving DecidableEq, Repr

/-- One `anchor_spl::token::Transfer` CPI as issued by `token_fee`: the
`from`/`to`/`authority` account keys of the `Transfer` accounts struct, the
program the `CpiContext` is built on, and the `amount` argument. -/
structure TransferCall where
  from_acc : Pubkey
  to_acc : Pubkey
  authority : Pubkey
  token_program : Pubkey
  amount : Nat
deriving DecidableEq, Repr

/-- The external world `token_fee` interacts with, but does not define:
`get_associated_token_address` (the canonical ATA derivation, a pure
function of wallet and mint), the fixed `solana_program::incinerator::id()`
constant, and the token program's `transfer` entry point, whose outcome for
a given call is arbitrary (success, or an error propagated unchanged). -/
structure ChargeEnv where
  get_associated_token_address : Pubkey → Pubkey → Pubkey
  incinerator_id : Pubkey
  transfer : TransferCall → Except ChargeError Unit

/-- The five account keys `token_fee` extracts from the context through the
`Chargeable` trait accessors. -/
structure ChargeCtx where
  user_ata : Pubkey
  authority : Pubkey
  mint_account : Pubkey
  incinerator : Pubkey
  token_program : Pubkey
deriving DecidableEq, Repr

/-- `verify_ata(ata, mint, user)` from `charge.rs`:
`require!(ata == get_associated_token_address(&user, &mint),
FeeError::InvalidAssociatedTokenAddress)`. -/
def verify_ata (env : ChargeEnv) (ata mint user : Pubkey) :
    Except ChargeError Unit :=
  if ata = env.get_associated_token_address user mint then
    Except.ok ()
  else
    Except.error (ChargeError.fee FeeError.invalidAssociatedTokenAddress)

/-- `token_fee(ctx, amount)` from `charge.rs`.  The second component of the
result is the trace of CPI calls issued, in order; every state mutation the
function can cause goes through such a call, so an empty trace means no
account state was touched.  Mirrors the source exactly: verify the
incinerator ATA against `(incinerator::id(), mint)`, then the user ATA
against `(authority, mint)`, then issue the single transfer, `?`-propagating
each failure. -/
def token_fee (env : ChargeEnv) (ctx : ChargeCtx) (amount : Nat) :
    Except ChargeError Unit × List TransferCall :=
  match verify_ata env ctx.incinerator ctx.mint_account env.incinerator_id with
  | Except.error e => (Except.error e, [])
  | Except.ok _ =>
    match verify_ata env ctx.user_ata ctx.mint_account ctx.authority with
    | Except.error e => (Except.error e, [])
    | Except.ok _ =>
      let call : TransferCall :=
        { from_acc := ctx.user_ata
          to_acc := ctx.incinerator
          authority := ctx.authority
          token_program := ctx.token_program
          amount := amount }
      match env.transfer call with
      | Except.error e => (Except.error e, [call])
      | Except.ok _ => (Except.ok (), [call])

/-- The single `Transfer` CPI `token_fee` builds from a context and an
amount (the `let call` inside `token_fee`). -/
def transferOf (ctx : ChargeCtx) (amount : Nat) : TransferCall :=
  { from_acc := ctx.user_ata
    to_acc := ctx.incinerator
    authority := ctx.authority
    token_program := ctx.token_program
    amount := amount }

/-! Concrete test environment used by the witnesses. -/

/-- A concrete, injective stand-in for the canonical ATA derivation. -/
def testGata : Pubkey → Pubkey → Pubkey :=
  fun user mint => ⟨(user.key + 1) * 1000 + mint.key⟩

/-- Environment whose transfer call always succeeds. -/
def testEnvOk : ChargeEnv :=
  { get_associated_token_address := testGata
    incinerator_id := ⟨100⟩
    transfer := fun _ => Except.ok () }

/-- Environment whose transfer call always fails with code 42. -/
def testEnvFail : ChargeEnv :=
  { get_associated_token_address := testGata
    incinerator_id := ⟨100⟩
    transfer := fun _ => Except.error (ChargeError.tokenProgram 42) }

/-- Context whose two token accounts are both canonically derived. -/
def testCtxGood : ChargeCtx :=
  { user_ata := testGata ⟨7⟩ ⟨5⟩
    authority := ⟨7⟩
    mint_account := ⟨5⟩
    incinerator := testGata ⟨100⟩ ⟨5⟩
    token_program := ⟨11⟩ }

/-- Context whose incinerator token account is not canonically derived. -/
def testCtxBadInc : ChargeCtx :=
  { testCtxGood with incinerator := ⟨0⟩ }

/-- Context whose payer token account is not canonically derived. -/
def testCtxBadUser : ChargeCtx :=
  { testCtxGood with user_ata := ⟨0⟩ }

/-!
Embedding of the `Chargeable` derive macro
(`src/derive/chargeable/src/lib.rs`).  A struct field is its optional
identifier plus the idents of its attribute paths (`attr.path.get_ident()`
is an `Option`, `none` for multi-segment paths).
-/

/-- Models `syn::Field`: the field's identifier (always `some` for named
fields) and, for each attribute, `attr.path.get_ident()` as a string. -/
structure Field where
  ident : Option String
  attrs : List (Option String)
deriving DecidableEq, Repr

/-- The predicate `get_field` searches with: the field's ident equals the
role name, or some attribute path ident equals the role name. -/
def roleMatches (name : String) (field : Field) : Bool :=
  field.ident = some name || field.attrs.any (fun attr => attr = some name)

/-- The diagnostic `get_field` produces for an unresolved role `name`. -/
def missingFieldMsg (name : String) : String :=
  "#[derive(Chargeable)] Missing `" ++ name ++
    "` field. Add it to the struct or use the #[" ++ name ++
    "] attribute in an existing field."

/-- `get_field(name, fields)` from the derive crate: the first field (in
declaration order) whose ident or attribute matches `name`, or the
missing-field diagnostic. -/
def get_field (name : String) (fields : List Field) : Except String Field :=
  match fields.find? (roleMatches name) with
  | some f => Except.ok f
  | none => Except.error (missingFieldMsg name)

/-- Models `syn::Fields`: named, tuple (unnamed, with arity), or unit. -/
inductive StructFields where
  | named (fields : List Field)
  | unnamed (arity : Nat)
  | unit
deriving DecidableEq, Repr

/-- Models the parsed `syn::ItemStruct` handed to the derive. -/
structure ItemStruct where
  ident : String
  fields : StructFields
deriving DecidableEq, Repr

/-- The diagnostic `impl_chargeable` produces for non-named-fields input. -/
def notNamedFieldsMsg : String :=
  "#[derive(Chargeable)] is only defined for structs with named fields."

/-- `field.ident.as_ref().unwrap()` from the `get_fields!` macro; total here
because named fields always carry an identifier. -/
def fieldIdent (f : Field) : String := f.ident.getD ""

/-- The generated `impl Chargeable`: for each trait accessor, the name of
the struct field the generated body `&self.#field` refers to.  Per the
`quote!` block: `mint_account` splices the `fee_token_address` resolution,
`user_ata` the `fee_payer_ata` one, `incinerator` the `fee_incinerator_ata`
one, `authority` the `fee_payer` one, `token_program` its namesake. -/
structure ChargeableImpl where
  mint_account : String
  user_ata : String
  incinerator : String
  authority : String
  token_program : String
deriving DecidableEq, Repr

/-- `impl_chargeable` from the derive crate: reject non-named-fields
structs, resolve the five roles in the order of the `get_fields!`
invocation (`fee_payer`, `fee_payer_ata`, `fee_incinerator_ata`,
`fee_token_address`, `token_program`), returning the first resolution
error as the compile error, else emit the trait impl. -/
def impl_chargeable (item : ItemStruct) : Except String ChargeableImpl :=
  match item.fields with
  | StructFields.named fields =>
    match get_field "fee_payer" fields with
    | Except.error e => Except.error e
    | Except.ok fee_payer =>
    match get_field "fee_payer_ata" fields with
    | Except.error e => Except.error e
    | Except.ok fee_payer_ata =>
    match get_field "fee_incinerator_ata" fields with
    | Except.error e => Except.error e
    | Except.ok fee_incinerator_ata =>
    match get_field "fee_token_address" fields with
    | Except.error e => Except.error e
    | Except.ok fee_token_address =>
    match get_field "token_program" fields with
    | Except.error e => Except.error e
    | Except.ok tok_prog =>
      Except.ok
        { mint_account := fieldIdent fee_token_address
          user_ata := fieldIdent fee_payer_ata
          incinerator := fieldIdent fee_incinerator_ata
          authority := fieldIdent fee_payer
          token_program := fieldIdent tok_prog }
  | _ => Except.error notNamedFieldsMsg

/-- The five role names, in the order `impl_chargeable` resolves them. -/
def roleNames : List String :=
  ["fee_payer", "fee_payer_ata", "fee_incinerator_ata",
   "fee_token_address", "token_program"]

/-- A role is resolvable in a field list when some field matches it. -/
def roleResolvable (fields : List Field) (name : String) : Bool :=
  fields.any (roleMatches name)

/-- The generated accessor corresponding to a role name, per the `quote!`
block of `impl_chargeable`. -/
def roleAccessor (name : String) (impl : ChargeableImpl) : String :=
  if name = "fee_payer" then impl.authority
  else if name = "fee_payer_ata" then impl.user_ata
  else if name = "fee_incinerator_ata" then impl.incinerator
  else if name = "fee_token_address" then impl.mint_account
  else impl.token_program

/-- A plain named field with no attributes. -/
def plainField (name : String) : Field := ⟨some name, []⟩

/-- A named field carrying a single marker attribute. -/
def markedField (name attrName : String) : Field := ⟨some name, [some attrName]⟩

/-!
Embedding of `src/src/wrappers/metadata.rs`.  The mpl-token-metadata
instruction builders and borsh deserializers are external; the wrapper's
observable behaviour is which operands it hands the builder and how it maps
the deserializer's result.
-/

/-- Models `mpl_token_metadata::state::DataV2`, the metadata data payload
the wrapper forwards verbatim (creators/collection/uses kept abstract as
key lists and options). -/
structure DataV2 where
  name : String
  symbol : String
  uri : String
  seller_fee_basis_points : Nat
  creators : Option (List Pubkey)
  collection : Option Pubkey
  uses : Option Nat
deriving DecidableEq, Repr

/-- Models `mpl_token_metadata::ID`, a fixed program-id constant; its
concrete value is irrelevant to every claim. -/
def mplTokenMetadataId : Pubkey := ⟨999⟩

/-- The operands of one `update_metadata_accounts_v2` instruction, exactly
the arguments of `mpl_token_metadata::instruction::update_metadata_accounts_v2`
in source order. -/
structure UpdateMetadataInstruction where
  program_id : Pubkey
  metadata_account : Pubkey
  update_authority : Pubkey
  new_update_authority : Option Pubkey
  data : Option DataV2
  primary_sale_happened : Option Bool
  is_mutable : Option Bool
deriving DecidableEq, Repr

/-- The `UpdateMetadataAccountV2` accounts struct (two account keys). -/
structure UpdateMetadataAccountV2 where
  metadata_account : Pubkey
  update_authority : Pubkey
deriving DecidableEq, Repr

/-- The wrapper `update_metadata_accounts_v2` from `metadata.rs`, modelled
by the instruction it constructs and hands to `invoke_signed`: program id
`mpl_token_metadata::ID`, the two context account keys, then literally
`None, Some(data), None, None`. -/
def update_metadata_accounts_v2 (ctx : UpdateMetadataAccountV2)
    (data : DataV2) : UpdateMetadataInstruction :=
  { program_id := mplTokenMetadataId
    metadata_account := ctx.metadata_account
    update_authority := ctx.update_authority
    new_update_authority := none
    data := some data
    primary_sale_happened := none
    is_mutable := none }

/-- The slice of `anchor_lang::error::ErrorCode` these wrappers can return,
plus an `other` constructor so that "maps every failure to
`AccountDidNotDeserialize`" is not vacuous. -/
inductive AnchorErrorCode where
  | accountDidNotDeserialize
  | other (code : Nat)
deriving DecidableEq, Repr

/-- Models `mpl_token_metadata::state::Metadata` (external record; a few
representative fields). -/
structure Metadata where
  update_authority : Pubkey
  mint : Pubkey
  primary_sale_happened : Bool
deriving DecidableEq, Repr

/-- Models `mpl_token_metadata::state::Edition` (external record). -/
structure Edition where
  parent : Pubkey
  edition : Nat
deriving DecidableEq, Repr

/-- Models `mpl_token_metadata::state::MasterEditionV2` (external record). -/
structure MasterEditionV2 where
  supply : Nat
  max_supply : Option Nat
deriving DecidableEq, Repr

/-- The newtype wrapper `MetadataAccount(state::Metadata)`. -/
structure MetadataAccount where
  val : Metadata
deriving DecidableEq, Repr

/-- The newtype wrapper `EditionAccount(state::Edition)`. -/
structure EditionAccount where
  val : Edition
deriving DecidableEq, Repr

/-- The newtype wrapper `MasterEditionAccount(state::MasterEditionV2)`. -/
structure MasterEditionAccount where
  val : MasterEditionV2
deriving DecidableEq, Repr

/-- `MetadataAccount::try_deserialize_unchecked`, parameterized by the
external borsh deserializer `state::Metadata::deserialize` (whose error is
an opaque code): `deserialize(buf).map_err(|_|
ErrorCode::AccountDidNotDeserialize.into()).map(MetadataAccount)`. -/
def MetadataAccount.try_deserialize_unchecked
    (deserialize : List Nat → Except Nat Metadata) (buf : List Nat) :
    Except AnchorErrorCode MetadataAccount :=
  match deserialize buf with
  | Except.error _ => Except.error AnchorErrorCode.accountDidNotDeserialize
  | Except.ok m => Except.ok ⟨m⟩

/-- `EditionAccount::try_deserialize_unchecked`, same shape over
`state::Edition::deserialize`. -/
def EditionAccount.try_deserialize_unchecked
    (deserialize : List Nat → Except Nat Edition) (buf : List Nat) :
    Except AnchorErrorCode EditionAccount :=
  match deserialize buf with
  | Except.error _ => Except.error AnchorErrorCode.accountDidNotDeserialize
  | Except.ok e => Except.ok ⟨e⟩

/-- `MasterEditionAccount::try_deserialize_unchecked`, same shape over
`state::MasterEditionV2::deserialize`. -/
def MasterEditionAccount.try_deserialize_unchecked
    (deserialize : List Nat → Except Nat MasterEditionV2) (buf : List Nat) :
    Except AnchorErrorCode MasterEditionAccount :=
  match deserialize buf with
  | Except.error _ => Except.error AnchorErrorCode.accountDidNotDeserialize
  | Except.ok m => Except.ok ⟨m⟩

/-!
Concrete struct fixtures used by the counterexamples and witnesses below.
-/

/-- A struct body where a field marked `#[fee_payer]` is declared before a
field literally named `fee_payer`. -/
def hijackedPayerFields : List Field :=
  [markedField "owner" "fee_payer", plainField "fee_payer"]

/-- The `hijackedPayerFields` situation completed with the four remaining
default-named fields (so all five default names are present, and `owner`
additionally carries the `fee_payer` marker). -/
def hijackedPayerStruct : List Field :=
  [markedField "owner" "fee_payer", plainField "fee_payer",
   plainField "fee_payer_ata", plainField "fee_incinerator_ata",
   plainField "fee_token_address", plainField "token_program"]

/-- A struct body with exactly the five default-named, unmarked fields. -/
def defaultNamedFields : List Field :=
  [plainField "fee_payer", plainField "fee_payer_ata",
   plainField "fee_incinerator_ata", plainField "fee_token_address",
   plainField "token_program"]

/-- A struct body where the `fee_payer` role is carried by a marker on the
field `owner` and the other four roles by their default names. -/
def markedPayerFields : List Field :=
  [markedField "owner" "fee_payer", plainField "fee_payer_ata",
   plainField "fee_incinerator_ata", plainField "fee_token_address",
   plainField "token_program"]

/-- The fields following `fee_payer` in the ambiguous-role fixture: a
second `fee_payer` match (via a marker on `extra`) plus the remaining four
roles. -/
def ambiguousTail : List Field :=
  [markedField "extra" "fee_payer", plainField "fee_payer_ata",
   plainField "fee_incinerator_ata", plainField "fee_token_address",
   plainField "token_program"]

/-- A struct body missing the `fee_incinerator_ata` role entirely. -/
def missingIncineratorFields : List Field :=
  [plainField "fee_payer", plainField "fee_payer_ata",
   plainField "fee_token_address", plainField "token_program"]

/-- A concrete metadata record for the deserializer witnesses. -/
def sampleMetadata : Metadata := ⟨⟨1⟩, ⟨2⟩, true⟩

/-- A concrete edition record for the deserializer witnesses. -/
def sampleEdition : Edition := ⟨⟨3⟩, 4⟩

/-- A concrete master-edition record for the deserializer witnesses. -/
def sampleMasterEdition : MasterEditionV2 := ⟨5, some 6⟩

/-! Helper lemmas about field resolution. -/

theorem roleMatches_iff (name : String) (f : Field) :
    roleMatches name f = true ↔ f.ident = some name ∨ some name ∈ f.attrs := by
  simp [roleMatches, List.any_eq_true]

theorem get_field_first_hit (name : String) (pre : List Field) (f : Field)
    (post : List Field) (hpre : ∀ g ∈ pre, roleMatches name g = false)
    (hf : roleMatches name f = true) :
    get_field name (pre ++ f :: post) = Except.ok f := by
  have hnone : pre.find? (roleMatches name) = none :=
    List.find?_eq_none.mpr (fun x hx => by simp [hpre x hx])
  unfold get_field
  rw [List.find?_append, hnone, List.find?_cons_of_pos _ hf]
  rfl

theorem get_field_ok_of_resolvable (name : String) (fields : List Field)
    (h : roleResolvable fields name = true) :
    ∃ f, get_field name fields = Except.ok f ∧ f ∈ fields ∧
      roleMatches name f = true := by
  unfold roleResolvable at h
  match hf : fields.find? (roleMatches name) with
  | some f =>
      exact ⟨f, by simp [get_field, hf], List.mem_of_find?_eq_some hf,
        List.find?_some hf⟩
  | none =>
      obtain ⟨x, hx, hpx⟩ := List.any_eq_true.mp h
      exact absurd hpx (by simpa using List.find?_eq_none.mp hf x hx)

theorem get_field_error_of_unresolvable (name : String) (fields : List Field)
    (h : roleResolvable fields name = false) :
    get_field name fields = Except.error (missingFieldMsg name) := by
  have hnone : fields.find? (roleMatches name) = none := by
    apply List.find?_eq_none.mpr
    intro x hx hpx
    have : fields.any (roleMatches name) = true := List.any_eq_true.mpr ⟨x, hx, hpx⟩
    rw [roleResolvable] at h
    simp [this] at h
  unfold get_field
  rw [hnone]

theorem impl_chargeable_named_ok (sname : String) (fields : List Field)
    (f1 f2 f3 f4 f5 : Field)
    (h1 : get_field "fee_payer" fields = Except.ok f1)
    (h2 : get_field "fee_payer_ata" fields = Except.ok f2)
    (h3 : get_field "fee_incinerator_ata" fields = Except.ok f3)
    (h4 : get_field "fee_token_address" fields = Except.ok f4)
    (h5 : get_field "token_program" fields = Except.ok f5) :
    impl_chargeable ⟨sname, StructFields.named fields⟩ =
      Except.ok
        { mint_account := fieldIdent f4
          user_ata := fieldIdent f2
          incinerator := fieldIdent f3
          authority := fieldIdent f1
          token_program := fieldIdent f5 } := by
  simp [impl_chargeable, h1, h2, h3, h4, h5]

/-! Helper lemmas about the fee charger. -/

theorem token_fee_inc_fail (env : ChargeEnv) (ctx : ChargeCtx) (amount : Nat)
    (h : ctx.incinerator ≠
      env.get_associated_token_address env.incinerator_id ctx.mint_account) :
    token_fee env ctx amount =
      (Except.error (ChargeError.fee FeeError.invalidAssociatedTokenAddress),
        []) := by
  simp [token_fee, verify_ata, h]

theorem token_fee_user_fail (env : ChargeEnv) (ctx : ChargeCtx) (amount : Nat)
    (h1 : ctx.incinerator =
      env.get_associated_token_address env.incinerator_id ctx.mint_account)
    (h2 : ctx.user_ata ≠
      env.get_associated_token_address ctx.authority ctx.mint_account) :
    token_fee env ctx amount =
      (Except.error (ChargeError.fee FeeError.invalidAssociatedTokenAddress),
        []) := by
  simp [token_fee, verify_ata, h1, h2]

theorem token_fee_pass_error (env : ChargeEnv) (ctx : ChargeCtx) (amount : Nat)
    (h1 : ctx.incinerator =
      env.get_associated_token_address env.incinerator_id ctx.mint_account)
    (h2 : ctx.user_ata =
      env.get_associated_token_address ctx.authority ctx.mint_account)
    (e : ChargeError)
    (he : env.transfer (transferOf ctx amount) = Except.error e) :
    token_fee env ctx amount = (Except.error e, [transferOf ctx amount]) := by
  simp [token_fee, verify_ata, h1, h2, transferOf] at he ⊢
  rw [he]

theorem token_fee_pass_ok (env : ChargeEnv) (ctx : ChargeCtx) (amount : Nat)
    (h1 : ctx.incinerator =
      env.get_associated_token_address env.incinerator_id ctx.mint_account)
    (h2 : ctx.user_ata =
      env.get_associated_token_address ctx.authority ctx.mint_account)
    (hok : env.transfer (transferOf ctx amount) = Except.ok ()) :
    token_fee env ctx amount = (Except.ok (), [transferOf ctx amount]) := by
  simp [token_fee, verify_ata, h1, h2, transferOf] at hok ⊢
  rw [hok]

theorem token_fee_pass_trace (env : ChargeEnv) (ctx : ChargeCtx) (amount : Nat)
    (h1 : ctx.incinerator =
      env.get_associated_token_address env.incinerator_id ctx.mint_account)
    (h2 : ctx.user_ata =
      env.get_associated_token_address ctx.authority ctx.mint_account) :
    (token_fee env ctx amount).2 = [transferOf ctx amount] := by
  rcases he : env.transfer (transferOf ctx amount) with e | u
  · rw [token_fee_pass_error env ctx amount h1 h2 e he]
  · rw [token_fee_pass_ok env ctx amount h1 h2 (by rw [he])]

/-! Claim C3. -/

/-- Claim C3 counterexample: `hijackedPayerFields` contains a field named
exactly `fee_payer` and a different, earlier field `owner` carrying the
`fee_payer` marker attribute, yet `get_field` resolves the role to the
marked field `owner` — so the exactly-named field does not win regardless
of declaration order, refuting the claimed name-over-marker precedence. -/
theorem get_field_name_precedence_cex :
    get_field "fee_payer" hijackedPayerFields =
      Except.ok (markedField "owner" "fee_payer") ∧
    (markedField "owner" "fee_payer").ident ≠ some "fee_payer" :=
  ⟨rfl, by decide⟩

/-- Claim C3 (amended): `get_field` performs a single pass in declaration
order, treating an exact-name match and a marker match alike; in
particular, when a field carrying the role's marker precedes every other
matching field, it wins even though a later field bears the role's exact
name. -/
theorem get_field_first_match_precedence (name : String) (pre : List Field)
    (f : Field) (post : List Field)
    (hpre : ∀ g ∈ pre, roleMatches name g = false)
    (hmark : some name ∈ f.attrs)
    (_hnamed : ∃ g ∈ post, g.ident = some name) :
    get_field name (pre ++ f :: post) = Except.ok f :=
  get_field_first_hit name pre f post hpre
    ((roleMatches_iff name f).mpr (Or.inr hmark))

/-- Claim C3 witness: the amended first-match rule evaluated on the
hijacked-payer struct body. -/
theorem get_field_first_match_precedence_witness :
    get_field "fee_payer"
      ([] ++ markedField "owner" "fee_payer" :: [plainField "fee_payer"]) =
      Except.ok (markedField "owner" "fee_payer") :=
  get_field_first_match_precedence "fee_payer" []
    (markedField "owner" "fee_payer") [plainField "fee_payer"]
    (fun g hg => absurd hg (List.not_mem_nil g))
    (by decide)
    ⟨plainField "fee_payer", by decide, by decide⟩

/-! Claim C4. -/

/-- Claim C4: when a role is satisfiable by more than one field (here: a
first matching field `f` and a further match somewhere after it),
`get_field` resolves the role to the first matching field in declaration
order and reports no error; and as long as every role is resolvable the
whole derive (`impl_chargeable`) still succeeds, emitting no diagnostic
about the ambiguity. -/
theorem get_field_ambiguity_first_wins (name : String) (pre : List Field)
    (f : Field) (post : List Field)
    (hpre : ∀ g ∈ pre, roleMatches name g = false)
    (hf : roleMatches name f = true)
    (_hambig : ∃ g ∈ post, roleMatches name g = true) :
    get_field name (pre ++ f :: post) = Except.ok f ∧
    ∀ sname : String,
      (∀ r ∈ roleNames, roleResolvable (pre ++ f :: post) r = true) →
      ∃ impl, impl_chargeable ⟨sname, StructFields.named (pre ++ f :: post)⟩ =
        Except.ok impl := by
  refine ⟨get_field_first_hit name pre f post hpre hf, ?_⟩
  intro sname hall
  obtain ⟨g1, e1, -, -⟩ := get_field_ok_of_resolvable "fee_payer" _
    (hall _ (by simp [roleNames]))
  obtain ⟨g2, e2, -, -⟩ := get_field_ok_of_resolvable "fee_payer_ata" _
    (hall _ (by simp [roleNames]))
  obtain ⟨g3, e3, -, -⟩ := get_field_ok_of_resolvable "fee_incinerator_ata" _
    (hall _ (by simp [roleNames]))
  obtain ⟨g4, e4, -, -⟩ := get_field_ok_of_resolvable "fee_token_address" _
    (hall _ (by simp [roleNames]))
  obtain ⟨g5, e5, -, -⟩ := get_field_ok_of_resolvable "token_program" _
    (hall _ (by simp [roleNames]))
  exact ⟨_, impl_chargeable_named_ok sname _ g1 g2 g3 g4 g5 e1 e2 e3 e4 e5⟩

/-- Claim C4 witness: the ambiguous fixture — `fee_payer` satisfiable both
by the exactly-named field and by the marker on `extra` — resolves to the
first match and the derive succeeds. -/
theorem get_field_ambiguity_first_wins_witness :
    get_field "fee_payer" ([] ++ plainField "fee_payer" :: ambiguousTail) =
      Except.ok (plainField "fee_payer") ∧
    ∃ impl,
      impl_chargeable
          ⟨"MyInstruction",
            StructFields.named ([] ++ plainField "fee_payer" :: ambiguousTail)⟩ =
        Except.ok impl := by
  have h := get_field_ambiguity_first_wins "fee_payer" []
    (plainField "fee_payer") ambiguousTail
    (fun g hg => absurd hg (List.not_mem_nil g))
    (by decide)
    ⟨markedField "extra" "fee_payer", by decide, by decide⟩
  exact ⟨h.1, h.2 "MyInstruction" (by decide)⟩

/-! Claim C5. -/

/-- Claim C5 counterexample: `hijackedPayerStruct` is a struct with named
fields containing all five default field names, the derive succeeds, but
the `authority` accessor (the `fee_payer` role) refers to the field
`owner` — which carries the `fee_payer` marker and is declared first —
rather than to the field named exactly `fee_payer`. -/
theorem chargeable_default_names_cex :
    (∀ r ∈ roleNames, ∃ f ∈ hijackedPayerStruct, f.ident = some r) ∧
    impl_chargeable ⟨"MyAccounts", StructFields.named hijackedPayerStruct⟩ =
      Except.ok
        { mint_account := "fee_token_address"
          user_ata := "fee_payer_ata"
          incinerator := "fee_incinerator_ata"
          authority := "owner"
          token_program := "token_program" } ∧
    ("owner" : String) ≠ "fee_payer" :=
  ⟨by decide, rfl, by decide⟩

/-- Claim C5 (amended): for every struct with named fields, (1) if it
contains all five default field names and role markers appear only on the
correspondingly-named fields themselves — the amendment the counterexample
forces, since a marker on a different field can hijack a role from the
exactly-named field — the derive succeeds and each generated accessor
refers to the field of exactly the default name; and (2) if no field bears
a role's default name but some field carries that role's marker (the other
roles being resolvable), the derive succeeds and that role's accessor
refers to a field carrying the marker. -/
theorem chargeable_resolution (sname : String) (fields : List Field) :
    (((∀ r ∈ roleNames, ∃ f ∈ fields, f.ident = some r) ∧
      (∀ f ∈ fields, ∀ r ∈ roleNames, some r ∈ f.attrs → f.ident = some r)) →
      impl_chargeable ⟨sname, StructFields.named fields⟩ =
        Except.ok
          { mint_account := "fee_token_address"
            user_ata := "fee_payer_ata"
            incinerator := "fee_incinerator_ata"
            authority := "fee_payer"
            token_program := "token_program" }) ∧
    (∀ r ∈ roleNames,
      (∀ f ∈ fields, f.ident ≠ some r) →
      (∃ f ∈ fields, some r ∈ f.attrs) →
      (∀ r' ∈ roleNames, roleResolvable fields r' = true) →
      ∃ impl f, impl_chargeable ⟨sname, StructFields.named fields⟩ =
          Except.ok impl ∧
        f ∈ fields ∧ some r ∈ f.attrs ∧ roleAccessor r impl = fieldIdent f) := by
  constructor
  · rintro ⟨hnames, hmark⟩
    have key : ∀ r ∈ roleNames, ∃ g, get_field r fields = Except.ok g ∧
        fieldIdent g = r := by
      intro r hr
      obtain ⟨f, hf, hi⟩ := hnames r hr
      have hres : roleResolvable fields r = true := by
        unfold roleResolvable
        exact List.any_eq_true.mpr ⟨f, hf, (roleMatches_iff r f).mpr (Or.inl hi)⟩
      obtain ⟨g, hg, hgmem, hgm⟩ := get_field_ok_of_resolvable r fields hres
      refine ⟨g, hg, ?_⟩
      rcases (roleMatches_iff r g).mp hgm with h | h
      · simp [fieldIdent, h]
      · simp [fieldIdent, hmark g hgmem r hr h]
    obtain ⟨g1, e1, i1⟩ := key "fee_payer" (by simp [roleNames])
    obtain ⟨g2, e2, i2⟩ := key "fee_payer_ata" (by simp [roleNames])
    obtain ⟨g3, e3, i3⟩ := key "fee_incinerator_ata" (by simp [roleNames])
    obtain ⟨g4, e4, i4⟩ := key "fee_token_address" (by simp [roleNames])
    obtain ⟨g5, e5, i5⟩ := key "token_program" (by simp [roleNames])
    rw [impl_chargeable_named_ok sname fields g1 g2 g3 g4 g5 e1 e2 e3 e4 e5]
    rw [i1, i2, i3, i4, i5]
  · intro r hr hnone hmarked hall
    obtain ⟨g1, e1, m1, t1⟩ := get_field_ok_of_resolvable "fee_payer" _
      (hall _ (by simp [roleNames]))
    obtain ⟨g2, e2, m2, t2⟩ := get_field_ok_of_resolvable "fee_payer_ata" _
      (hall _ (by simp [roleNames]))
    obtain ⟨g3, e3, m3, t3⟩ := get_field_ok_of_resolvable "fee_incinerator_ata" _
      (hall _ (by simp [roleNames]))
    obtain ⟨g4, e4, m4, t4⟩ := get_field_ok_of_resolvable "fee_token_address" _
      (hall _ (by simp [roleNames]))
    obtain ⟨g5, e5, m5, t5⟩ := get_field_ok_of_resolvable "token_program" _
      (hall _ (by simp [roleNames]))
    have himpl := impl_chargeable_named_ok sname fields g1 g2 g3 g4 g5
      e1 e2 e3 e4 e5
    simp [roleNames] at hr
    rcases hr with rfl | rfl | rfl | rfl | rfl
    · exact ⟨_, g1, himpl, m1,
        ((roleMatches_iff _ g1).mp t1).resolve_left (hnone g1 m1), rfl⟩
    · exact ⟨_, g2, himpl, m2,
        ((roleMatches_iff _ g2).mp t2).resolve_left (hnone g2 m2), rfl⟩
    · exact ⟨_, g3, himpl, m3,
        ((roleMatches_iff _ g3).mp t3).resolve_left (hnone g3 m3), rfl⟩
    · exact ⟨_, g4, himpl, m4,
        ((roleMatches_iff _ g4).mp t4).resolve_left (hnone g4 m4), rfl⟩
    · exact ⟨_, g5, himpl, m5,
        ((roleMatches_iff _ g5).mp t5).resolve_left (hnone g5 m5), rfl⟩

/-- Claim C5 witness: the fully default-named struct resolves every role to
its namesake, and the marker-carrying struct resolves the `fee_payer` role
to the marked field `owner`. -/
theorem chargeable_resolution_witness :
    impl_chargeable ⟨"MyIx", StructFields.named defaultNamedFields⟩ =
      Except.ok
        { mint_account := "fee_token_address"
          user_ata := "fee_payer_ata"
          incinerator := "fee_incinerator_ata"
          authority := "fee_payer"
          token_program := "token_program" } ∧
    (∃ impl f,
      impl_chargeable ⟨"MyIx2", StructFields.named markedPayerFields⟩ =
        Except.ok impl ∧
      f ∈ markedPayerFields ∧ some "fee_payer" ∈ f.attrs ∧
      roleAccessor "fee_payer" impl = fieldIdent f) := by
  constructor
  · exact (chargeable_resolution "MyIx" defaultNamedFields).1
      ⟨by decide, by decide⟩
  · exact (chargeable_resolution "MyIx2" markedPayerFields).2 "fee_payer"
      (by decide) (by decide)
      ⟨markedField "owner" "fee_payer", by decide, by decide⟩ (by decide)

/-! Claim C6. -/

/-- Claim C6: if some role of a named-fields struct resolves neither by
field name nor by marker, `impl_chargeable` fails with the missing-field
diagnostic for an unresolved role (`missingFieldMsg` names the role and
suggests both the default-named field and the marker attribute); and for
tuple or unit structs it fails with the named-fields-only diagnostic. -/
theorem chargeable_missing_role (sname : String) (fields : List Field) :
    ((∃ r ∈ roleNames, roleResolvable fields r = false) →
      ∃ r ∈ roleNames, roleResolvable fields r = false ∧
        impl_chargeable ⟨sname, StructFields.named fields⟩ =
          Except.error (missingFieldMsg r)) ∧
    (∀ n, impl_chargeable ⟨sname, StructFields.unnamed n⟩ =
        Except.error notNamedFieldsMsg) ∧
    impl_chargeable ⟨sname, StructFields.unit⟩ =
      Except.error notNamedFieldsMsg := by
  refine ⟨?_, fun n => rfl, rfl⟩
  intro hex
  by_cases h1 : roleResolvable fields "fee_payer" = true
  · obtain ⟨g1, e1, -, -⟩ := get_field_ok_of_resolvable _ _ h1
    by_cases h2 : roleResolvable fields "fee_payer_ata" = true
    · obtain ⟨g2, e2, -, -⟩ := get_field_ok_of_resolvable _ _ h2
      by_cases h3 : roleResolvable fields "fee_incinerator_ata" = true
      · obtain ⟨g3, e3, -, -⟩ := get_field_ok_of_resolvable _ _ h3
        by_cases h4 : roleResolvable fields "fee_token_address" = true
        · obtain ⟨g4, e4, -, -⟩ := get_field_ok_of_resolvable _ _ h4
          by_cases h5 : roleResolvable fields "token_program" = true
          · exfalso
            obtain ⟨r, hr, hfalse⟩ := hex
            simp [roleNames] at hr
            rcases hr with rfl | rfl | rfl | rfl | rfl <;> simp_all
          · refine ⟨"token_program", by simp [roleNames],
              by simpa using h5, ?_⟩
            simp [impl_chargeable, e1, e2, e3, e4,
              get_field_error_of_unresolvable _ _ (by simpa using h5)]
        · refine ⟨"fee_token_address", by simp [roleNames],
            by simpa using h4, ?_⟩
          simp [impl_chargeable, e1, e2, e3,
            get_field_error_of_unresolvable _ _ (by simpa using h4)]
      · refine ⟨"fee_incinerator_ata", by simp [roleNames],
          by simpa using h3, ?_⟩
        simp [impl_chargeable, e1, e2,
          get_field_error_of_unresolvable _ _ (by simpa using h3)]
    · refine ⟨"fee_payer_ata", by simp [roleNames], by simpa using h2, ?_⟩
      simp [impl_chargeable, e1,
        get_field_error_of_unresolvable _ _ (by simpa using h2)]
  · refine ⟨"fee_payer", by simp [roleNames], by simpa using h1, ?_⟩
    simp [impl_chargeable,
      get_field_error_of_unresolvable _ _ (by simpa using h1)]

/-- Claim C6 witness: a struct missing the `fee_incinerator_ata` role
entirely fails with that role's diagnostic, and a tuple struct fails with
the named-fields-only diagnostic. -/
theorem chargeable_missing_role_witness :
    (∃ r ∈ roleNames, roleResolvable missingIncineratorFields r = false ∧
      impl_chargeable ⟨"BadIx", StructFields.named missingIncineratorFields⟩ =
        Except.error (missingFieldMsg r)) ∧
    impl_chargeable ⟨"TupleIx", StructFields.unnamed 2⟩ =
      Except.error notNamedFieldsMsg := by
  refine ⟨(chargeable_missing_role "BadIx" missingIncineratorFields).1
    ⟨"fee_incinerator_ata", by decide, by decide⟩, ?_⟩
  exact (chargeable_missing_role "TupleIx" missingIncineratorFields).2.1 2

/-! Claim C1. -/

/-- Claim C1: for every environment, context and amount, `token_fee`
issues a transfer CPI (non-empty trace) only if both associated-token
checks pass; and whenever either the burn token account or the payer token
account differs from its canonically derived associated address,
`token_fee` returns the `InvalidAssociatedTokenAddress` error with an
empty CPI trace — no transfer is issued, so no account state changes. -/
theorem token_fee_fail_closed (env : ChargeEnv) (ctx : ChargeCtx)
    (amount : Nat) :
    ((token_fee env ctx amount).2 ≠ [] →
      ctx.incinerator =
        env.get_associated_token_address env.incinerator_id ctx.mint_account ∧
      ctx.user_ata =
        env.get_associated_token_address ctx.authority ctx.mint_account) ∧
    ((ctx.incinerator ≠
        env.get_associated_token_address env.incinerator_id ctx.mint_account ∨
      ctx.user_ata ≠
        env.get_associated_token_address ctx.authority ctx.mint_account) →
      token_fee env ctx amount =
        (Except.error (ChargeError.fee FeeError.invalidAssociatedTokenAddress),
          [])) := by
  constructor
  · intro htr
    by_cases h1 : ctx.incinerator =
        env.get_associated_token_address env.incinerator_id ctx.mint_account
    · by_cases h2 : ctx.user_ata =
          env.get_associated_token_address ctx.authority ctx.mint_account
      · exact ⟨h1, h2⟩
      · rw [token_fee_user_fail env ctx amount h1 h2] at htr
        simp at htr
    · rw [token_fee_inc_fail env ctx amount h1] at htr
      simp at htr
  · rintro (h | h)
    · exact token_fee_inc_fail env ctx amount h
    · by_cases h1 : ctx.incinerator =
          env.get_associated_token_address env.incinerator_id ctx.mint_account
      · exact token_fee_user_fail env ctx amount h1 h
      · exact token_fee_inc_fail env ctx amount h1

/-- Claim C1 witness: with a non-canonical burn token account, `token_fee`
fails with `InvalidAssociatedTokenAddress` and issues no CPI. -/
theorem token_fee_fail_closed_witness :
    token_fee testEnvOk testCtxBadInc 5 =
      (Except.error (ChargeError.fee FeeError.invalidAssociatedTokenAddress),
        []) :=
  (token_fee_fail_closed testEnvOk testCtxBadInc 5).2 (Or.inl (by decide))

/-! Claim C2. -/

/-- Claim C2: `token_fee`'s two address checks both run before the transfer
(the trace is empty on any mismatch) and in the source's order — a
burn-account mismatch against the address derived from the fixed
incinerator owner and the mint decides the call by itself, and only when
the burn account is canonical is the payer account compared against the
address derived from the payer authority and the mint; either mismatch
fails with the same `InvalidAssociatedTokenAddress` error kind. -/
theorem token_fee_checks_order (env : ChargeEnv) (ctx : ChargeCtx)
    (amount : Nat) :
    (ctx.incinerator ≠
        env.get_associated_token_address env.incinerator_id ctx.mint_account →
      token_fee env ctx amount =
        (Except.error (ChargeError.fee FeeError.invalidAssociatedTokenAddress),
          [])) ∧
    (ctx.incinerator =
        env.get_associated_token_address env.incinerator_id ctx.mint_account →
      ctx.user_ata ≠
        env.get_associated_token_address ctx.authority ctx.mint_account →
      token_fee env ctx amount =
        (Except.error (ChargeError.fee FeeError.invalidAssociatedTokenAddress),
          [])) :=
  ⟨fun h => token_fee_inc_fail env ctx amount h,
   fun h1 h2 => token_fee_user_fail env ctx amount h1 h2⟩

/-- Claim C2 witness: a canonical burn account but non-canonical payer
account fails with the same error kind and an empty trace. -/
theorem token_fee_checks_order_witness :
    token_fee testEnvOk testCtxBadUser 7 =
      (Except.error (ChargeError.fee FeeError.invalidAssociatedTokenAddress),
        []) :=
  (token_fee_checks_order testEnvOk testCtxBadUser 7).2 (by decide) (by decide)

/-! Claim C7. -/

/-- Claim C7: when both address checks pass, a failing transfer call is
propagated to the caller as-is (the very error value the token program
returned, no reinterpretation, and the trace shows no retry), and a
successful call yields success with exactly one CPI in the trace — the
single transfer. -/
theorem token_fee_transfer_passthrough (env : ChargeEnv) (ctx : ChargeCtx)
    (amount : Nat)
    (h1 : ctx.incinerator =
      env.get_associated_token_address env.incinerator_id ctx.mint_account)
    (h2 : ctx.user_ata =
      env.get_associated_token_address ctx.authority ctx.mint_account) :
    (∀ e, env.transfer (transferOf ctx amount) = Except.error e →
      token_fee env ctx amount = (Except.error e, [transferOf ctx amount])) ∧
    (env.transfer (transferOf ctx amount) = Except.ok () →
      token_fee env ctx amount = (Except.ok (), [transferOf ctx amount])) :=
  ⟨fun e he => token_fee_pass_error env ctx amount h1 h2 e he,
   fun hok => token_fee_pass_ok env ctx amount h1 h2 hok⟩

/-- Claim C7 witness: with canonical addresses and a token program that
fails with code 42, `token_fee` returns exactly that error after the one
transfer attempt. -/
theorem token_fee_transfer_passthrough_witness :
    token_fee testEnvFail testCtxGood 5 =
      (Except.error (ChargeError.tokenProgram 42), [transferOf testCtxGood 5]) :=
  (token_fee_transfer_passthrough testEnvFail testCtxGood 5
    (by decide) (by decide)).1 (ChargeError.tokenProgram 42) rfl

/-! Claim C8. -/

/-- Claim C8: with both addresses canonical, any unsigned 64-bit amount —
zero included — is passed through to the single issued transfer exactly,
with no rounding, scaling or added fee; and `token_fee(ctx, 0)` succeeds
whenever the token program accepts the zero-value transfer, issuing that
single zero-value call. -/
theorem token_fee_amount_exact (env : ChargeEnv) (ctx : ChargeCtx)
    (amount : Nat) (_h64 : amount < 2 ^ 64)
    (h1 : ctx.incinerator =
      env.get_associated_token_address env.incinerator_id ctx.mint_account)
    (h2 : ctx.user_ata =
      env.get_associated_token_address ctx.authority ctx.mint_account) :
    (token_fee env ctx amount).2 = [transferOf ctx amount] ∧
    (transferOf ctx amount).amount = amount ∧
    (env.transfer (transferOf ctx 0) = Except.ok () →
      token_fee env ctx 0 = (Except.ok (), [transferOf ctx 0])) :=
  ⟨token_fee_pass_trace env ctx amount h1 h2, rfl,
   fun hok => token_fee_pass_ok env ctx 0 h1 h2 hok⟩

/-- Claim C8 witness: at amount 3 the issued call carries exactly 3, and at
amount 0 the call succeeds with a single zero-value transfer. -/
theorem token_fee_amount_exact_witness :
    (token_fee testEnvOk testCtxGood 3).2 = [transferOf testCtxGood 3] ∧
    token_fee testEnvOk testCtxGood 0 =
      (Except.ok (), [transferOf testCtxGood 0]) := by
  have h := token_fee_amount_exact testEnvOk testCtxGood 3
    (by norm_num) (by decide) (by decide)
  exact ⟨h.1, h.2.2 rfl⟩

/-! Claim C9. -/

/-- Claim C9: the `update_metadata_accounts_v2` wrapper always hands the
external instruction builder `None` for the new update authority, `None`
for primary-sale-happened and `None` for is-mutable, forwarding only the
data payload (as `Some data`) along with the fixed program id and the two
context account keys — so through this wrapper only the metadata's data
payload can change. -/
theorem update_metadata_only_data (ctx : UpdateMetadataAccountV2)
    (data : DataV2) :
    (update_metadata_accounts_v2 ctx data).new_update_authority = none ∧
    (update_metadata_accounts_v2 ctx data).data = some data ∧
    (update_metadata_accounts_v2 ctx data).primary_sale_happened = none ∧
    (update_metadata_accounts_v2 ctx data).is_mutable = none ∧
    (update_metadata_accounts_v2 ctx data).program_id = mplTokenMetadataId ∧
    (update_metadata_accounts_v2 ctx data).metadata_account =
      ctx.metadata_account ∧
    (update_metadata_accounts_v2 ctx data).update_authority =
      ctx.update_authority :=
  ⟨rfl, rfl, rfl, rfl, rfl, rfl, rfl⟩

/-! Claim C10. -/

/-- Claim C10: each of the three metadata wrapper deserializers maps every
underlying deserialization failure — whatever its cause — to the single
`AccountDidNotDeserialize` error code, and on success returns the parsed
record wrapped unmodified in the corresponding newtype. -/
theorem metadata_wrappers_deserialize
    (dm : List Nat → Except Nat Metadata)
    (de : List Nat → Except Nat Edition)
    (dme : List Nat → Except Nat MasterEditionV2) (buf : List Nat) :
    (∀ e, dm buf = Except.error e →
      MetadataAccount.try_deserialize_unchecked dm buf =
        Except.error AnchorErrorCode.accountDidNotDeserialize) ∧
    (∀ m, dm buf = Except.ok m →
      MetadataAccount.try_deserialize_unchecked dm buf = Except.ok ⟨m⟩) ∧
    (∀ e, de buf = Except.error e →
      EditionAccount.try_deserialize_unchecked de buf =
        Except.error AnchorErrorCode.accountDidNotDeserialize) ∧
    (∀ m, de buf = Except.ok m →
      EditionAccount.try_deserialize_unchecked de buf = Except.ok ⟨m⟩) ∧
    (∀ e, dme buf = Except.error e →
      MasterEditionAccount.try_deserialize_unchecked dme buf =
        Except.error AnchorErrorCode.accountDidNotDeserialize) ∧
    (∀ m, dme buf = Except.ok m →
      MasterEditionAccount.try_deserialize_unchecked dme buf =
        Except.ok ⟨m⟩) := by
  refine ⟨fun e he => ?_, fun m hm => ?_, fun e he => ?_, fun m hm => ?_,
    fun e he => ?_, fun m hm => ?_⟩
  · simp [MetadataAccount.try_deserialize_unchecked, he]
  · simp [MetadataAccount.try_deserialize_unchecked, hm]
  · simp [EditionAccount.try_deserialize_unchecked, he]
  · simp [EditionAccount.try_deserialize_unchecked, hm]
  · simp [MasterEditionAccount.try_deserialize_unchecked, he]
  · simp [MasterEditionAccount.try_deserialize_unchecked, hm]

/-- Claim C10 witness: concrete failing deserializers (distinct causes 7,
9, 11) all collapse to `AccountDidNotDeserialize`, and concrete succeeding
deserializers return the wrapped records unmodified. -/
theorem metadata_wrappers_deserialize_witness :
    MetadataAccount.try_deserialize_unchecked (fun _ => Except.error 7) [1, 2] =
      Except.error AnchorErrorCode.accountDidNotDeserialize ∧
    EditionAccount.try_deserialize_unchecked (fun _ => Except.error 9) [1, 2] =
      Except.error AnchorErrorCode.accountDidNotDeserialize ∧
    MasterEditionAccount.try_deserialize_unchecked
        (fun _ => Except.error 11) [1, 2] =
      Except.error AnchorErrorCode.accountDidNotDeserialize ∧
    MetadataAccount.try_deserialize_unchecked
        (fun _ => Except.ok sampleMetadata) [1, 2] =
      Except.ok ⟨sampleMetadata⟩ ∧
    EditionAccount.try_deserialize_unchecked
        (fun _ => Except.ok sampleEdition) [1, 2] =
      Except.ok ⟨sampleEdition⟩ ∧
    MasterEditionAccount.try_deserialize_unchecked
        (fun _ => Except.ok sampleMasterEdition) [1, 2] =
      Except.ok ⟨sampleMasterEdition⟩ := by
  have hE := metadata_wrappers_deserialize (fun _ => Except.error 7)
    (fun _ => Except.error 9) (fun _ => Except.error 11) [1, 2]
  have hO := metadata_wrappers_deserialize (fun _ => Except.ok sampleMetadata)
    (fun _ => Except.ok sampleEdition) (fun _ => Except.ok sampleMasterEdition)
    [1, 2]
  exact ⟨hE.1 7 rfl, hE.2.2.1 9 rfl, hE.2.2.2.2.1 11 rfl,
    hO.2.1 sampleMetadata rfl, hO.2.2.2.1 sampleEdition rfl,
    hO.2.2.2.2.2 sampleMasterEdition rfl⟩

end Solutils
